import Mathlib

/-!
Shallow embedding of the ararpy argon-argon computation library
(src/ararpy/arar.py, src/constants.py) and a verification of its
specification claims.

Uncertain quantities (the `uncertainties.ufloat` values the source
manipulates) are modelled as pairs of a nominal value and a variance
(the square of the standard deviation), with first order propagation
treating operands as independent.  The exact correction pipeline is
modelled over ℚ; the functions built on `exp`/`log` are modelled over
ℝ.  Python exceptions are modelled with `Except`.
-/

namespace Ararpy

/-- An uncertain quantity, modelling `uncertainties.ufloat`: a nominal
value `n` and a variance `v` (the square of `std_dev`). -/
structure UF where
  n : ℚ
  v : ℚ
deriving DecidableEq

instance : Add UF := ⟨fun a b => ⟨a.n + b.n, a.v + b.v⟩⟩
instance : Sub UF := ⟨fun a b => ⟨a.n - b.n, a.v + b.v⟩⟩
instance : Mul UF := ⟨fun a b => ⟨a.n * b.n, b.n ^ 2 * a.v + a.n ^ 2 * b.v⟩⟩

@[simp] theorem UF.add_def (a b : UF) : a + b = ⟨a.n + b.n, a.v + b.v⟩ := rfl
@[simp] theorem UF.sub_def (a b : UF) : a - b = ⟨a.n - b.n, a.v + b.v⟩ := rfl
@[simp] theorem UF.mul_def (a b : UF) :
    a * b = ⟨a.n * b.n, b.n ^ 2 * a.v + a.n ^ 2 * b.v⟩ := rfl

/-- Division of uncertain quantities.  The Python `ZeroDivisionError` on
a zero nominal denominator is modelled at each call site. -/
def UF.div (a b : UF) : UF :=
  ⟨a.n / b.n, a.v / b.n ^ 2 + a.n ^ 2 * b.v / b.n ^ 4⟩

/-- Multiplication of a ufloat by an exact float scalar
(`float * ufloat` in the source). -/
def UF.smul (c : ℚ) (a : UF) : UF := ⟨c * a.n, c ^ 2 * a.v⟩

/-- Python exceptions raised by the embedded functions. -/
inductive PyErr where
  | attributeError (attr : String)
  | typeError
  | valueError
  | zeroDivisionError
deriving DecidableEq

/-- A production-ratio dictionary: an association list from ratio names
to uncertain quantities (a Python dict of ufloats; keys are unique). -/
abbrev PRDict := List (String × UF)

/-- Python `pr.get(key, default)`. -/
def prGet (pr : PRDict) (k : String) (d : UF) : UF :=
  match pr.find? (fun p => p.1 == k) with
  | some p => p.2
  | none => d

/-- The effect on the dictionary values of setting every value's
`std_dev` to 0 (the `pp.std_dev = 0` loop at the end of
`calculate_F`). -/
def zeroStds (pr : PRDict) : PRDict := pr.map (fun p => (p.1, ⟨p.2.n, 0⟩))

/-- The duck-typed constants object the pipeline reads.  Attribute
reads that can raise `AttributeError` (absent attributes, and the
`lambda_k` property whose body itself dereferences a missing
attribute) are `Except` valued; `atm4036`, `atm3836` and
`lambda_Cl36` exist on every `ArArConstants` instance and are plain. -/
structure PyConstants where
  k3739_mode : Except PyErr String
  fixed_k3739 : Except PyErr ℚ
  allow_negative_ca_correction : Except PyErr Bool
  age_scalar : Except PyErr ℚ
  lambda_k : Except PyErr UF
  atm4036 : UF
  atm3836 : UF
  lambda_Cl36 : UF

/-- The default-constructed `ArArConstants` (src/constants.py).  The
class defines the `atm4036`, `atm3836` and `lambda_Cl36` properties,
but has no `k3739_mode`, `fixed_k3739`,
`allow_negative_ca_correction` or `age_scalar` attribute, and its
`lambda_k` property evaluates `self.lambda_b + self.self.lambda_e`,
so reading it raises `AttributeError` on `self`. -/
def defaultArArConstants : PyConstants where
  k3739_mode := .error (.attributeError "k3739_mode")
  fixed_k3739 := .error (.attributeError "fixed_k3739")
  allow_negative_ca_correction := .error (.attributeError "allow_negative_ca_correction")
  age_scalar := .error (.attributeError "age_scalar")
  lambda_k := .error (.attributeError "self")
  atm4036 := ⟨591 / 2, 1 / 4⟩
  atm3836 := (⟨591 / 2, 1 / 4⟩ : UF).div ⟨1575, 4⟩
  lambda_Cl36 := ⟨6308 / 10 ^ 12, 0⟩

/-- A well-formed constants object of the kind callers inject
(paragraph 6 of the spec lists the recognised options); used by the
concrete instantiations below. -/
def testConstants : PyConstants where
  k3739_mode := .ok "normal"
  fixed_k3739 := .ok (1 / 100)
  allow_negative_ca_correction := .ok true
  age_scalar := .ok 1
  lambda_k := .ok ⟨5543 / 10 ^ 13, 0⟩
  atm4036 := ⟨591 / 2, 1 / 4⟩
  atm3836 := (⟨591 / 2, 1 / 4⟩ : UF).div ⟨1575, 4⟩
  lambda_Cl36 := ⟨6308 / 10 ^ 12, 0⟩

/-- Python `str.lower()`: lowercase every character. -/
def pyLower (s : String) : String := ⟨s.data.map Char.toLower⟩

/-- Truthiness of the `fixed_k3739` argument (Python default `False`;
a float argument is falsy exactly when it is `0.0`). -/
def truthyF : Option ℚ → Bool
  | none => false
  | some x => x != 0

/-- One pass of the iterative Ca/K loop of `interference_corrections`
(src/ararpy/arar.py lines 190-194); the state is the 4-tuple
`(ca37, ca39, k39, k37)` and only `k37` is read by the next pass. -/
def caKStep (pr : PRDict) (a37 a39 : UF) (s : UF × UF × UF × UF) : UF × UF × UF × UF :=
  let ca37 := a37 - s.2.2.2
  let ca39 := prGet pr "ca3937" ⟨0, 0⟩ * ca37
  let k39 := a39 - ca39
  let k37 := prGet pr "k3739" ⟨0, 0⟩ * k39
  (ca37, ca39, k39, k37)

/-- Python `max(ufloat(0, 0), ca37)` applied when negative calcium
corrections are not allowed; `uncertainties` compares by nominal
value, so the result is `ca37` when its nominal value is positive and
the exact `ufloat(0, 0)` otherwise. -/
def clampCa37 (allowNeg : Bool) (ca37 : UF) : UF :=
  if allowNeg then ca37 else if 0 < ca37.n then ca37 else ⟨0, 0⟩

/-- `apply_fixed_k3739` (src/ararpy/arar.py lines 155-172).  The two
divisions (`1 / pr.get('ca3937', 1)` and the division by `x + y`) are
unguarded in the source, so a zero nominal denominator raises
`ZeroDivisionError`.  Returns `(ca37, ca39, k37, k39)` in source
order. -/
def apply_fixed_k3739 (a39 : UF) (pr : PRDict) (fixed_k3739 : ℚ) :
    Except PyErr (UF × UF × UF × UF) := do
  let x : UF := ⟨fixed_k3739, 0⟩
  let c := prGet pr "ca3937" ⟨1, 0⟩
  if c.n = 0 then
    Except.error .zeroDivisionError
  else
    let y := (⟨1, 0⟩ : UF).div c
    if (x + y).n = 0 then
      Except.error .zeroDivisionError
    else
      let ca37 := (a39 * x * y).div (x + y)
      let ca39 := prGet pr "ca3937" ⟨0, 0⟩ * ca37
      let k39 := a39 - ca39
      let k37 := x * k39
      return (ca37, ca39, k37, k39)

/-- `interference_corrections` (src/ararpy/arar.py lines 175-209).
`k37` starts as `ufloat(0, 1e-20)` (variance `10 ^ (-40)`); in normal
mode the coupled Ca/K system is solved by five passes of `caKStep`
(the first three components of the initial state are placeholders for
the Python variables that are unbound before the loop and are never
read).  Returns `(k37, k38, k39, ca36, ca37, ca38, ca39)`. -/
def interference_corrections (a40 a39 a38 a37 a36 : UF) (production_ratios : PRDict)
    (cOpt : Option PyConstants) (fixed_k3739 : Option ℚ) :
    Except PyErr (UF × UF × UF × UF × UF × UF × UF) := do
  let c := cOpt.getD defaultArArConstants
  let pr := production_ratios
  let mode ← c.k3739_mode
  let r ←
    if pyLower mode == "normal" && !truthyF fixed_k3739 then
      pure ((caKStep pr a37 a39)^[5] (⟨0, 0⟩, ⟨0, 0⟩, ⟨0, 0⟩, ⟨0, 1 / 10 ^ 40⟩))
    else do
      let fx ← if truthyF fixed_k3739 then pure (fixed_k3739.getD 0) else c.fixed_k3739
      let (ca37, ca39, k37, k39) ← apply_fixed_k3739 a39 pr fx
      pure (ca37, ca39, k39, k37)
  let (ca37, ca39, k39, k37) := r
  let k38 := prGet pr "k3839" ⟨0, 0⟩ * k39
  let allowNeg ← c.allow_negative_ca_correction
  let ca37c := clampCa37 allowNeg ca37
  let ca36 := prGet pr "ca3637" ⟨0, 0⟩ * ca37c
  let ca38 := prGet pr "ca3837" ⟨0, 0⟩ * ca37c
  return (k37, k38, k39, ca36, ca37c, ca38, ca39)

/-- One pass of the atmospheric loop of `calculate_atmospheric`
(src/ararpy/arar.py lines 232-236); the state is `(atm36, cl36)`. -/
def atmStep (a38 a36 k38 ca38 ca36 : UF) (atm3836n : ℚ) (m : UF) (s : UF × UF) : UF × UF :=
  let ar38atm := UF.smul atm3836n s.1
  let cl38 := a38 - ar38atm - k38 - ca38
  let cl36 := cl38 * m
  let atm36 := a36 - ca36 - cl36
  (atm36, cl36)

/-- `calculate_atmospheric` (src/ararpy/arar.py lines 212-237).
`atm36` starts as `ufloat(0, 1e-20)`; the `cl36` component of the
initial state is a placeholder for the Python variable that is
unbound before the loop and is never read before being assigned. -/
def calculate_atmospheric (a38 a36 k38 ca38 ca36 : UF) (decay_time : ℚ)
    (pr : PRDict) (cOpt : Option PyConstants) : UF × UF :=
  let c := cOpt.getD defaultArArConstants
  let m := UF.smul (c.lambda_Cl36.n * decay_time) (prGet pr "cl3638" ⟨0, 0⟩)
  (atmStep a38 a36 k38 ca38 ca36 c.atm3836.n m)^[5] (⟨0, 1 / 10 ^ 40⟩, ⟨0, 0⟩)

/-- The quantities `calculate_F` derives from one set of production
ratios. -/
structure FCore where
  k37 : UF
  k38 : UF
  k39 : UF
  ca36 : UF
  ca37 : UF
  ca38 : UF
  ca39 : UF
  atm36 : UF
  cl36 : UF
  atm40 : UF
  k40 : UF
  rad40 : UF
  rad40_percent : UF
  f : UF
deriving DecidableEq

/-- The body of `calculate_F` run against one production-ratio
dictionary (src/ararpy/arar.py lines 265-297).  The two divisions are
wrapped in `try/except ZeroDivisionError` in the source, hence the
guarded fallbacks `ufloat(1.0, 0)` for `f` and `ufloat(0, 0)` for the
radiogenic percentage. -/
def calculate_F_core (a40 a39 a38 a37 a36 : UF) (decay_time : ℚ) (pr : PRDict)
    (cOpt : Option PyConstants) (fixed_k3739 : Option ℚ) : Except PyErr FCore := do
  let c := cOpt.getD defaultArArConstants
  let (k37, k38, k39, ca36, ca37, ca38, ca39) ←
    interference_corrections a40 a39 a38 a37 a36 pr (some c) fixed_k3739
  let (atm36, cl36) := calculate_atmospheric a38 a36 k38 ca38 ca36 decay_time pr (some c)
  let atm40 := UF.smul c.atm4036.n atm36
  let k40 := k39 * prGet pr "k4039" ⟨1, 0⟩
  let rad40 := a40 - atm40 - k40
  let f := if k39.n = 0 then (⟨1, 0⟩ : UF) else rad40.div k39
  let rp := if a40.n = 0 then (⟨0, 0⟩ : UF) else (rad40.div a40) * ⟨100, 0⟩
  return ⟨k37, k38, k39, ca36, ca37, ca38, ca39, atm36, cl36, atm40, k40, rad40, rp, f⟩

/-- What `calculate_F` returns: `rf` (a deepcopy of `f` taken before
the ratio uncertainties are zeroed), `f_wo_irrad` (the same lazy
expression read after every production-ratio `std_dev` is set to 0,
hence the value of `f` recomputed from `zeroStds pr`), the
`non_ar_isotopes` and `computed` dictionaries and the
`interference_corrected` isotope bundle. -/
structure FResult where
  rf : UF
  f_wo_irrad : UF
  k40 : UF
  ca39 : UF
  k38 : UF
  ca38 : UF
  k37 : UF
  ca37 : UF
  ca36 : UF
  cl36 : UF
  rad40 : UF
  rad40_percent : UF
  k39 : UF
  atm40 : UF
  icAr40 : UF
  icAr39 : UF
  icAr38 : UF
  icAr37 : UF
  icAr36 : UF
deriving DecidableEq

/-- `calculate_F` (src/ararpy/arar.py lines 240-313).  The per-call
copy of `interferences` is value-preserving, so the numeric pipeline
reads the caller's values; `rf` is deep-copied before the
`pp.std_dev = 0` loop, while `f_wo_irrad` aliases the lazy `f`
expression whose uncertainty is re-read after the zeroing, i.e. its
value is `f` computed over `zeroStds pr`.  The heap-level frame
behaviour of the copy and the zeroing is modelled separately below. -/
def calculate_F (a40 a39 a38 a37 a36 : UF) (decay_time : ℚ) (interferences : PRDict)
    (cOpt : Option PyConstants) (fixed_k3739 : Option ℚ) : Except PyErr FResult := do
  let pr := interferences
  let main ← calculate_F_core a40 a39 a38 a37 a36 decay_time pr cOpt fixed_k3739
  let wo ← calculate_F_core a40 a39 a38 a37 a36 decay_time (zeroStds pr) cOpt fixed_k3739
  return { rf := main.f
           f_wo_irrad := wo.f
           k40 := main.k40
           ca39 := main.ca39
           k38 := main.k38
           ca38 := main.ca38
           k37 := main.k37
           ca37 := main.ca37
           ca36 := main.ca36
           cl36 := main.cl36
           rad40 := main.rad40
           rad40_percent := main.rad40_percent
           k39 := main.k39
           atm40 := main.atm40
           icAr40 := a40 - main.k40
           icAr39 := main.k39
           icAr38 := a38
           icAr37 := a37
           icAr36 := main.atm36 }

/-- A heap of ufloat objects; a Python dict of ufloats is a list of
(key, heap index) pairs.  This models object identity, which the
frame claim about `calculate_F` is about. -/
abbrev Heap := List UF

/-- A Python dict of ufloat objects: keys with references into the
heap. -/
abbrev HDict := List (String × Nat)

/-- The per-call copy `dict((k, v.__copy__()) for k, v in
interferences.iteritems())` (src/ararpy/arar.py line 261): every
value is copied into a fresh heap cell and the new dict references
the copies. -/
def copyInterferences (heap : Heap) (d : HDict) : Heap × HDict :=
  (heap ++ d.map (fun p => (heap.getD p.2 ⟨0, 0⟩ : UF)),
   d.enum.map (fun q => (q.2.1, heap.length + q.1)))

/-- The `for pp in pr.itervalues(): pp.std_dev = 0` loop
(src/ararpy/arar.py lines 309-310): an in-place write of a zero
standard deviation to every object the dict references. -/
def zeroStdHeap (heap : Heap) (refs : HDict) : Heap :=
  refs.foldl (fun h p => h.set p.2 ⟨(h.getD p.2 ⟨0, 0⟩).n, 0⟩) heap

/-- Reading the copied dict's values out of the heap gives the
production-ratio values the numeric pipeline works on. -/
def readDict (heap : Heap) (refs : HDict) : PRDict :=
  refs.map (fun p => (p.1, heap.getD p.2 ⟨0, 0⟩))

/-- `calculate_F` at the heap level: copy the caller's interference
dict, run the numeric pipeline on the copies, zero the copies'
standard deviations in place, and return the result together with
the final heap. -/
def calculate_F_heap (heap : Heap) (d : HDict) (a40 a39 a38 a37 a36 : UF)
    (decay_time : ℚ) (cOpt : Option PyConstants) (fixed_k3739 : Option ℚ) :
    Except PyErr FResult × Heap :=
  let hr := copyInterferences heap d
  let pr := readDict hr.1 hr.2
  (calculate_F a40 a39 a38 a37 a36 decay_time pr cOpt fixed_k3739,
   zeroStdHeap hr.1 hr.2)

/-- An uncertain quantity over ℝ, for the functions built on
`exp`/`log`: nominal value and variance, first order propagation with
independent operands. -/
structure UFR where
  n : ℝ
  v : ℝ

def UFR.add (a b : UFR) : UFR := ⟨a.n + b.n, a.v + b.v⟩

def UFR.sub (a b : UFR) : UFR := ⟨a.n - b.n, a.v + b.v⟩

def UFR.mul (a b : UFR) : UFR := ⟨a.n * b.n, b.n ^ 2 * a.v + a.n ^ 2 * b.v⟩

noncomputable def UFR.div (a b : UFR) : UFR :=
  ⟨a.n / b.n, a.v / b.n ^ 2 + a.n ^ 2 * b.v / b.n ^ 4⟩

def UFR.smul (c : ℝ) (a : UFR) : UFR := ⟨c * a.n, c ^ 2 * a.v⟩

/-- `ufloat ** -1`. -/
noncomputable def UFR.inv (a : UFR) : UFR := ⟨1 / a.n, a.v / a.n ^ 4⟩

/-- `umath.exp`. -/
noncomputable def UFR.exp (a : UFR) : UFR :=
  ⟨Real.exp a.n, Real.exp a.n ^ 2 * a.v⟩

/-- `umath.log`; its `ValueError` on a non-positive nominal argument is
modelled at the call site. -/
noncomputable def UFR.log (a : UFR) : UFR := ⟨Real.log a.n, a.v / a.n ^ 2⟩

/-- The view of an uncertain ℚ quantity over ℝ. -/
def UF.toR (a : UF) : UFR := ⟨(a.n : ℝ), (a.v : ℝ)⟩

/-- A Python value passed as `j` or `f` to `age_equation`: a `(nominal,
std_dev)` tuple, a string (modelling the external `ufloat` parser as
either a parsed representation or a malformed text), a ufloat, or a
non-numeric object such as `None`. -/
inductive PyVal where
  | tup (n s : ℝ)
  | pystr (rep : Option (ℝ × ℝ))
  | uf (u : UFR)
  | obj

/-- The `isinstance` conversions at the top of `age_equation`
(src/ararpy/arar.py lines 319-327).  A malformed string makes the
`ufloat` constructor raise `ValueError` there, outside the
`try` block; a non-numeric non-string object is passed through
unconverted (`none` here) and only fails later, inside the `try`. -/
def coerceJF : PyVal → Except PyErr (Option UFR)
  | .tup n s => .ok (some ⟨n, s ^ 2⟩)
  | .pystr (some r) => .ok (some ⟨r.1, r.2 ^ 2⟩)
  | .pystr none => .error .valueError
  | .uf u => .ok (some u)
  | .obj => .ok none

/-- `age_equation` (src/ararpy/arar.py lines 316-338).  After the
input conversions, `scalar = float(arar_constants.age_scalar)` and
the `lambda_k` read can raise `AttributeError`.  Inside the `try`,
`lk ** -1` is evaluated first (`ZeroDivisionError` on a zero nominal
`lambda_k` is not caught), then `umath.log(1 + j * f)`: a `TypeError`
from a non-numeric operand or a `ValueError` from a non-positive
logarithm argument is caught and yields `ufloat(0, 0)`; finally the
division by `scalar` raises an uncaught `ZeroDivisionError` when the
scalar is zero. -/
noncomputable def age_equation (j f : PyVal) (include_decay_error : Bool)
    (cOpt : Option PyConstants) : Except PyErr UFR := do
  let jc ← coerceJF j
  let fc ← coerceJF f
  let c := cOpt.getD defaultArArConstants
  let scalarQ ← c.age_scalar
  let scalar : ℝ := (scalarQ : ℝ)
  let lkq ← c.lambda_k
  let lk : UFR := if include_decay_error then lkq.toR else ⟨(lkq.n : ℝ), 0⟩
  if lk.n = 0 then
    Except.error .zeroDivisionError
  else
    match jc, fc with
    | some ju, some fu =>
      let arg := UFR.add ⟨1, 0⟩ (UFR.mul ju fu)
      if arg.n ≤ 0 then
        return ⟨0, 0⟩
      else if scalar = 0 then
        Except.error .zeroDivisionError
      else
        return UFR.div (UFR.mul (UFR.inv lk) (UFR.log arg)) ⟨scalar, 0⟩
    | _, _ => return ⟨0, 0⟩

/-- `calculate_flux` (src/ararpy/arar.py lines 85-113).  Tuple inputs
are converted by `ufloat(*..)`, which is the identity on the
uncertain value, so both arguments are modelled as ufloats directly.
Inside the `try`, reading `lambda_k` can raise `AttributeError`
(uncaught: only `ZeroDivisionError` is handled), and the division by
a zero `f` yields the documented `(1, 0)` fallback.  The source
returns the pair `(j.nominal_value, j.std_dev)`, which carries the
same information as the uncertain value returned here. -/
noncomputable def calculate_flux (f age : UFR) (cOpt : Option PyConstants) :
    Except PyErr UFR := do
  let c := cOpt.getD defaultArArConstants
  let lkq ← c.lambda_k
  let e := UFR.exp (UFR.smul (lkq.n : ℝ) age)
  if f.n = 0 then
    return ⟨1, 0⟩
  else
    return UFR.div (UFR.sub e ⟨1, 0⟩) f

open Classical in
/-- `calculate_decay_factor` (src/ararpy/arar.py lines 121-140):
`a = sum(pi * ti)` and `b = sum(pi * ((1 - exp(-dc*ti)) / (dc *
exp(dc*dti))))` are computed before the `try` block, so with
`dc = 0` and a nonempty segment list the division inside the sum
raises an uncaught `ZeroDivisionError` (the term denominator
`dc * exp(dc * dti)` is zero exactly when `dc` is); only the final
`a / b` is guarded, returning `1.0` when `b` is zero.  Segments are
`(pi, ti, dti)` triples. -/
noncomputable def calculate_decay_factor (dc : ℝ) (segments : List (ℝ × ℝ × ℝ)) :
    Except PyErr ℝ :=
  let a := (segments.map (fun p => p.1 * p.2.1)).sum
  if dc = 0 ∧ segments ≠ [] then
    .error .zeroDivisionError
  else
    let b := (segments.map
      (fun p => p.1 * ((1 - Real.exp (-dc * p.2.1)) / (dc * Real.exp (dc * p.2.2))))).sum
    if b = 0 then .ok 1 else .ok (a / b)

open Classical in
/-- `calculate_error_F` (src/ararpy/arar.py lines 345-369): the closed
form McDougall and Harrison eq. 3.43 error on F.  The three ratios
are formed with ufloat division (modelled with independent first
order propagation); the unguarded division by a zero `m39` nominal
value raises `ZeroDivisionError`. -/
noncomputable def calculate_error_F (signals : UFR × UFR × UFR × UFR × UFR)
    (k4039 ca3937 ca3637 : UFR) : Except PyErr ℝ := do
  let (m40, m39, _m38, m37, m36) := signals
  if m39.n = 0 then
    Except.error .zeroDivisionError
  else
    let G := UFR.div m40 m39
    let B := UFR.div m36 m39
    let D := UFR.div m37 m39
    let C1 : ℝ := 591 / 2
    let C2 := ca3637.n
    let _C3 := k4039.n
    let C4 := ca3937.n
    let ssF := G.v + C1 ^ 2 * B.v + D.v * (C4 * G.n - C1 * C4 * B.n + C1 * C2) ^ 2
    return Real.sqrt ssF

/-- Calling an `ArArConstants` instance, as `calculate_error_t` does
with `constants()`: the class defines no `__call__`, so this raises
`TypeError` unconditionally. -/
def callConstantsInstance (_c : PyConstants) : Except PyErr PyConstants :=
  .error .typeError

/-- Reading the attribute `lambdak` (note the spelling) off an
`ArArConstants` instance: the class has no such attribute (the
property is `lambda_k`), so this raises `AttributeError`. -/
def getattrLambdak (_c : PyConstants) : Except PyErr UF :=
  .error (.attributeError "lambdak")

/-- `calculate_error_t` (src/ararpy/arar.py lines 372-382).  The body
evaluates `constants()` on a plain `ArArConstants` instance, which
raises `TypeError` before anything else; were it callable, the
`lambdak` attribute read would raise `AttributeError` next.  The
closed-form expression from the source follows the failing calls. -/
noncomputable def calculate_error_t (F ssF j ssJ : ℝ) : Except PyErr ℝ := do
  let constants := defaultArArConstants
  let inst ← callConstantsInstance constants
  let lambdak ← getattrLambdak inst
  let ll := ((lambdak.n : ℝ)) ^ 2
  let JJ := j * j
  let FF := F * F
  let sst := (JJ * ssF + FF * ssJ) / (ll * (1 + F * j) ^ 2)
  return Real.sqrt sst

/-- Modelled from the spec: the 2-sigma overlap test of the plateau
detector (section 4.5; the `plateau` module the source imports is not
in src).  Two steps overlap when their age difference is within two
combined standard errors; the combination is compared through
squares to stay in ℚ. -/
def stepsOverlap (a1 e1 a2 e2 : ℚ) : Bool :=
  decide ((a1 - a2) ^ 2 ≤ 2 ^ 2 * (e1 ^ 2 + e2 ^ 2))

/-- The half-open slice `xs[i:j]`. -/
def sliceL (xs : List ℚ) (i j : Nat) : List ℚ := (xs.drop i).take (j - i)

/-- Modelled from the spec: whether the half-open range `[i, j)`
qualifies as a plateau — every pair of steps in it overlaps within
two sigma and its cumulative 39Ar fraction reaches the minimum
threshold of one half (the design constant of section 4.5). -/
def rangeQualifies (ages errors k39 : List ℚ) (i j : Nat) : Bool :=
  let sa := sliceL ages i j
  let se := sliceL errors i j
  (List.all ((sa.zip se).product (sa.zip se))
      (fun q => stepsOverlap q.1.1 q.1.2 q.2.1 q.2.2)) &&
    decide ((sliceL k39 i j).sum * 2 ≥ k39.sum)

/-- Modelled from the spec: `Plateau.find_plateaus` (the `plateau`
module is not in src).  Returns the longest qualifying contiguous
half-open range, preferring the earliest start on ties, and `none`
when no range qualifies; the `method` string selects the 1977
convention and is not discriminated here. -/
def find_plateaus (ages errors k39 : List ℚ) (_method : String) : Option (Nat × Nat) :=
  let n := ages.length
  let ranges := (List.range (n + 1)).flatMap (fun j => (List.range j).map (fun i => (i, j)))
  let good := ranges.filter (fun r => rangeQualifies ages errors k39 r.1 r.2)
  good.foldl
    (fun acc r =>
      match acc with
      | none => some r
      | some b =>
        if r.2 - r.1 > b.2 - b.1 then some r
        else if r.2 - r.1 == b.2 - b.1 && r.1 < b.1 then some r
        else acc)
    none

/-- Modelled from the spec: `stats.calculate_weighted_mean` (the
`stats` module is not in src): the inverse-variance weighted mean and
its standard error; the error slot carries the variance
`1 / sum of weights` (the square of the standard error), keeping the
value in ℚ. -/
def calculate_weighted_mean (ages errors : List ℚ) : ℚ × ℚ :=
  let ws := errors.map (fun e => 1 / e ^ 2)
  let sw := ws.sum
  ((List.zipWith (fun a w => a * w) ages ws).sum / sw, 1 / sw)

/-- Models `numpy.average(values, weights=...)`: a single scalar, the
weighted arithmetic mean. -/
def numpy_average (xs ws : List ℚ) : ℚ :=
  (List.zipWith (fun a w => a * w) xs ws).sum / ws.sum

/-- `calculate_plateau_age` (src/ararpy/arar.py lines 50-82).  When the
detector returns a range, the `vol_fraction` branch executes
`wm, we = average(plateau_ages, weights=weights)`: `numpy.average`
returns a single scalar, and unpacking it into two names raises
`TypeError`.  The default branch returns the inverse-variance
weighted mean and error of the slice together with the range; when
the detector finds nothing the function falls through and returns
`None`. -/
def calculate_plateau_age (ages errors k39 : List ℚ) (kind : String) (method : String) :
    Except PyErr (Option (ℚ × ℚ × (Nat × Nat))) :=
  match find_plateaus ages errors k39 method with
  | none => .ok none
  | some pidx =>
    let plateau_ages := sliceL ages pidx.1 pidx.2
    if kind == "vol_fraction" then
      let weights := sliceL k39 pidx.1 pidx.2
      let _scalar := numpy_average plateau_ages weights
      .error .typeError
    else
      let plateau_errors := sliceL errors pidx.1 pidx.2
      let wmwe := calculate_weighted_mean plateau_ages plateau_errors
      .ok (some (wmwe.1, wmwe.2, pidx))

/-! ### Helper lemmas -/

instance {ε α : Type} [DecidableEq ε] [DecidableEq α] : DecidableEq (Except ε α) :=
  fun a b =>
    match a, b with
    | .ok x, .ok y =>
      if h : x = y then isTrue (by rw [h]) else isFalse (fun hh => by cases hh; exact h rfl)
    | .error x, .error y =>
      if h : x = y then isTrue (by rw [h]) else isFalse (fun hh => by cases hh; exact h rfl)
    | .ok _, .error _ => isFalse (fun hh => by cases hh)
    | .error _, .ok _ => isFalse (fun hh => by cases hh)

@[simp] theorem UF.zero_mul_uf (x : UF) : (⟨0, 0⟩ : UF) * x = ⟨0, 0⟩ := by
  simp [UF.mul_def]

@[simp] theorem UF.mul_zero_uf (x : UF) : x * (⟨0, 0⟩ : UF) = ⟨0, 0⟩ := by
  simp [UF.mul_def]

@[simp] theorem UF.sub_zero_uf (x : UF) : x - (⟨0, 0⟩ : UF) = x := by
  cases x; simp [UF.sub_def]

@[simp] theorem UF.smul_zero_uf (c : ℚ) : UF.smul c ⟨0, 0⟩ = ⟨0, 0⟩ := by
  simp [UF.smul]

theorem prGet_zeroStds (pr : PRDict) (k : String) (c : ℚ) :
    prGet (zeroStds pr) k ⟨c, 0⟩ = ⟨(prGet pr k ⟨c, 0⟩).n, 0⟩ := by
  induction pr with
  | nil => simp [prGet, zeroStds]
  | cons p tl ih =>
    by_cases h : p.1 == k
    · simp [prGet, zeroStds, List.find?_cons, h]
    · simpa [prGet, zeroStds, List.find?_cons, h] using ih

theorem pyLower_normal : pyLower "normal" = "normal" := by decide

theorem caKStep_zero_ratios (pr : PRDict) (a37 a39 : UF) (s : UF × UF × UF × UF)
    (h1 : prGet pr "ca3937" ⟨0, 0⟩ = ⟨0, 0⟩) (h2 : prGet pr "k3739" ⟨0, 0⟩ = ⟨0, 0⟩) :
    caKStep pr a37 a39 s = (a37 - s.2.2.2, ⟨0, 0⟩, a39, ⟨0, 0⟩) := by
  simp [caKStep, h1, h2]

theorem ic_zero_ratios (a40 a39 a38 a37 a36 : UF) (pr : PRDict) (c : PyConstants)
    (allowNeg : Bool)
    (hm : c.k3739_mode = .ok "normal")
    (hneg : c.allow_negative_ca_correction = .ok allowNeg)
    (h1 : prGet pr "ca3937" ⟨0, 0⟩ = ⟨0, 0⟩)
    (h2 : prGet pr "k3739" ⟨0, 0⟩ = ⟨0, 0⟩)
    (h3 : prGet pr "k3839" ⟨0, 0⟩ = ⟨0, 0⟩)
    (h4 : prGet pr "ca3637" ⟨0, 0⟩ = ⟨0, 0⟩)
    (h5 : prGet pr "ca3837" ⟨0, 0⟩ = ⟨0, 0⟩) :
    interference_corrections a40 a39 a38 a37 a36 pr (some c) none =
      .ok (⟨0, 0⟩, ⟨0, 0⟩, a39, ⟨0, 0⟩, clampCa37 allowNeg a37, ⟨0, 0⟩, ⟨0, 0⟩) := by
  simp [interference_corrections, hm, hneg, Bind.bind, Except.bind, Pure.pure, Except.pure,
    truthyF, pyLower_normal, caKStep_zero_ratios, h1, h2, h3, h4, h5]

theorem atm_zero_ratios (a38 a36 k38 ca38 : UF) (dt : ℚ) (pr : PRDict) (c : PyConstants)
    (h6 : prGet pr "cl3638" ⟨0, 0⟩ = ⟨0, 0⟩) :
    calculate_atmospheric a38 a36 k38 ca38 ⟨0, 0⟩ dt pr (some c) = (a36, ⟨0, 0⟩) := by
  simp [calculate_atmospheric, h6, Function.iterate_succ_apply, Function.iterate_zero_apply,
    atmStep]

theorem core_zero_ratios (a40 a39 a38 a37 a36 : UF) (dt : ℚ) (pr : PRDict) (c : PyConstants)
    (allowNeg : Bool)
    (hm : c.k3739_mode = .ok "normal")
    (hneg : c.allow_negative_ca_correction = .ok allowNeg)
    (h1 : prGet pr "ca3937" ⟨0, 0⟩ = ⟨0, 0⟩)
    (h2 : prGet pr "k3739" ⟨0, 0⟩ = ⟨0, 0⟩)
    (h3 : prGet pr "k3839" ⟨0, 0⟩ = ⟨0, 0⟩)
    (h4 : prGet pr "ca3637" ⟨0, 0⟩ = ⟨0, 0⟩)
    (h5 : prGet pr "ca3837" ⟨0, 0⟩ = ⟨0, 0⟩)
    (h6 : prGet pr "cl3638" ⟨0, 0⟩ = ⟨0, 0⟩)
    (h7 : prGet pr "k4039" ⟨1, 0⟩ = ⟨0, 0⟩)
    (h39 : a39.n ≠ 0) :
    calculate_F_core a40 a39 a38 a37 a36 dt pr (some c) none =
      .ok ⟨⟨0, 0⟩, ⟨0, 0⟩, a39, ⟨0, 0⟩, clampCa37 allowNeg a37, ⟨0, 0⟩, ⟨0, 0⟩, a36, ⟨0, 0⟩,
        UF.smul c.atm4036.n a36, ⟨0, 0⟩, a40 - UF.smul c.atm4036.n a36,
        (if a40.n = 0 then (⟨0, 0⟩ : UF) else
          ((a40 - UF.smul c.atm4036.n a36).div a40) * ⟨100, 0⟩),
        (a40 - UF.smul c.atm4036.n a36).div a39⟩ := by
  simp [calculate_F_core, Bind.bind, Except.bind, Pure.pure, Except.pure,
    ic_zero_ratios a40 a39 a38 a37 a36 pr c allowNeg hm hneg h1 h2 h3 h4 h5,
    atm_zero_ratios a38 a36 ⟨0, 0⟩ ⟨0, 0⟩ dt pr c h6, h7, h39]

theorem apply_fixed_ok_zeroStds (a39 : UF) (pr : PRDict) (fx : ℚ)
    (t : UF × UF × UF × UF)
    (h : apply_fixed_k3739 a39 pr fx = .ok t) :
    ∃ t', apply_fixed_k3739 a39 (zeroStds pr) fx = .ok t' := by
  unfold apply_fixed_k3739 at h ⊢
  rw [prGet_zeroStds, prGet_zeroStds]
  simp only [UF.div, UF.add_def] at h ⊢
  split at h
  next hc => exact absurd h (by simp)
  next hc =>
    split at h
    next hxy => exact absurd h (by simp)
    next hxy =>
      rw [if_neg hc, if_neg hxy]
      exact ⟨_, rfl⟩

theorem ic_ok_zeroStds (a40 a39 a38 a37 a36 : UF) (pr : PRDict) (c : PyConstants)
    (fx : Option ℚ) (t : UF × UF × UF × UF × UF × UF × UF)
    (h : interference_corrections a40 a39 a38 a37 a36 pr (some c) fx = .ok t) :
    ∃ t', interference_corrections a40 a39 a38 a37 a36 (zeroStds pr) (some c) fx =
      .ok t' := by
  unfold interference_corrections at h ⊢
  simp only [Option.getD_some] at h ⊢
  cases hm : c.k3739_mode with
  | error e => simp [hm, Bind.bind, Except.bind] at h
  | ok mode =>
    simp only [hm, Bind.bind, Except.bind] at h ⊢
    by_cases hcond : (pyLower mode == "normal" && !truthyF fx) = true
    · simp only [hcond, if_true] at h ⊢
      cases hneg : c.allow_negative_ca_correction with
      | error e => simp [hneg, Pure.pure, Except.pure] at h
      | ok an => exact ⟨_, rfl⟩
    · simp only [Bool.not_eq_true] at hcond
      simp only [hcond, Bool.false_eq_true, if_false] at h ⊢
      by_cases htr : truthyF fx = true
      · simp only [htr, if_true] at h ⊢
        cases haf : apply_fixed_k3739 a39 pr (fx.getD 0) with
        | error e2 => simp [haf, Pure.pure, Except.pure] at h
        | ok u =>
          obtain ⟨u', hu'⟩ := apply_fixed_ok_zeroStds a39 pr (fx.getD 0) u haf
          simp only [Pure.pure, Except.pure] at h ⊢
          rw [hu']
          cases hneg : c.allow_negative_ca_correction with
          | error e => rw [haf] at h; simp [hneg, Except.pure] at h
          | ok an => exact ⟨_, rfl⟩
      · simp only [Bool.not_eq_true] at htr
        simp only [htr, Bool.false_eq_true, if_false] at h ⊢
        cases hfk : c.fixed_k3739 with
        | error e2 => simp [hfk] at h
        | ok q =>
          simp only [hfk] at h ⊢
          cases haf : apply_fixed_k3739 a39 pr q with
          | error e2 => simp [haf, Pure.pure, Except.pure] at h
          | ok u =>
            obtain ⟨u', hu'⟩ := apply_fixed_ok_zeroStds a39 pr q u haf
            simp only [Pure.pure, Except.pure] at h ⊢
            rw [hu']
            cases hneg : c.allow_negative_ca_correction with
            | error e => rw [haf] at h; simp [hneg, Except.pure] at h
            | ok an => exact ⟨_, rfl⟩

theorem core_unfold (a40 a39 a38 a37 a36 : UF) (dt : ℚ) (pr : PRDict) (c : PyConstants)
    (fx : Option ℚ) (k37 k38 k39 ca36 ca37 ca38 ca39 : UF)
    (hic : interference_corrections a40 a39 a38 a37 a36 pr (some c) fx =
      .ok (k37, k38, k39, ca36, ca37, ca38, ca39)) :
    calculate_F_core a40 a39 a38 a37 a36 dt pr (some c) fx =
      .ok ⟨k37, k38, k39, ca36, ca37, ca38, ca39,
        (calculate_atmospheric a38 a36 k38 ca38 ca36 dt pr (some c)).1,
        (calculate_atmospheric a38 a36 k38 ca38 ca36 dt pr (some c)).2,
        UF.smul c.atm4036.n (calculate_atmospheric a38 a36 k38 ca38 ca36 dt pr (some c)).1,
        k39 * prGet pr "k4039" ⟨1, 0⟩,
        a40 - UF.smul c.atm4036.n (calculate_atmospheric a38 a36 k38 ca38 ca36 dt pr (some c)).1
          - k39 * prGet pr "k4039" ⟨1, 0⟩,
        (if a40.n = 0 then (⟨0, 0⟩ : UF) else
          ((a40 - UF.smul c.atm4036.n
              (calculate_atmospheric a38 a36 k38 ca38 ca36 dt pr (some c)).1
            - k39 * prGet pr "k4039" ⟨1, 0⟩).div a40) * ⟨100, 0⟩),
        (if k39.n = 0 then (⟨1, 0⟩ : UF) else
          (a40 - UF.smul c.atm4036.n
              (calculate_atmospheric a38 a36 k38 ca38 ca36 dt pr (some c)).1
            - k39 * prGet pr "k4039" ⟨1, 0⟩).div k39)⟩ := by
  simp [calculate_F_core, Bind.bind, Except.bind, Pure.pure, Except.pure, hic]

/-- A production-ratio mapping with every interference ratio present
and zero. -/
def zeroRatioPR : PRDict :=
  [("ca3637", ⟨0, 0⟩), ("ca3937", ⟨0, 0⟩), ("ca3837", ⟨0, 0⟩), ("k3739", ⟨0, 0⟩),
   ("k3839", ⟨0, 0⟩), ("k4039", ⟨0, 0⟩), ("cl3638", ⟨0, 0⟩)]

/-! ### C1 -/

/-- C1 counterexample: with every interference ratio zero and the
measured signals all `ufloat(1, 0)` (40Ar being `ufloat(2, 0)`), the
interference correction returns `k39 = ufloat(1, 0)` (the measured
39Ar) and `ca37 = ufloat(1, 0)` (the measured 37Ar), not zero, so
the claimed `k39 = ca37 = 0` fails. -/
theorem C1_counterexample :
    interference_corrections ⟨2, 0⟩ ⟨1, 0⟩ ⟨1, 0⟩ ⟨1, 0⟩ ⟨1, 0⟩ zeroRatioPR
      (some testConstants) none =
      .ok (⟨0, 0⟩, ⟨0, 0⟩, ⟨1, 0⟩, ⟨0, 0⟩, ⟨1, 0⟩, ⟨0, 0⟩, ⟨0, 0⟩) ∧
    ((⟨1, 0⟩ : UF) ≠ ⟨0, 0⟩) := by
  constructor
  · have h := ic_zero_ratios ⟨2, 0⟩ ⟨1, 0⟩ ⟨1, 0⟩ ⟨1, 0⟩ ⟨1, 0⟩ zeroRatioPR testConstants
      true rfl rfl rfl rfl rfl rfl rfl
    simpa [clampCa37] using h
  · intro h
    have := congrArg UF.n h
    norm_num at this

/-- C1 (amended): with every interference ratio zero and normal
(iterative) mode, the interference correction yields
`k37 = k38 = ca36 = ca38 = ca39 = 0`, while `k39` equals the measured
39Ar and `ca37` equals the measured 37Ar (clamped at zero when
negative calcium corrections are disallowed); the F-ratio returned
by `calculate_F` equals measured 40Ar minus `atm4036` times the
atmospheric 36Ar (here the measured 36Ar), divided by the measured
39Ar. -/
theorem C1_zero_ratio_pipeline (a40 a39 a38 a37 a36 : UF) (dt : ℚ) (pr : PRDict)
    (c : PyConstants) (allowNeg : Bool)
    (hm : c.k3739_mode = .ok "normal")
    (hneg : c.allow_negative_ca_correction = .ok allowNeg)
    (h1 : prGet pr "ca3937" ⟨0, 0⟩ = ⟨0, 0⟩)
    (h2 : prGet pr "k3739" ⟨0, 0⟩ = ⟨0, 0⟩)
    (h3 : prGet pr "k3839" ⟨0, 0⟩ = ⟨0, 0⟩)
    (h4 : prGet pr "ca3637" ⟨0, 0⟩ = ⟨0, 0⟩)
    (h5 : prGet pr "ca3837" ⟨0, 0⟩ = ⟨0, 0⟩)
    (h6 : prGet pr "cl3638" ⟨0, 0⟩ = ⟨0, 0⟩)
    (h7 : prGet pr "k4039" ⟨1, 0⟩ = ⟨0, 0⟩)
    (h39 : a39.n ≠ 0) :
    interference_corrections a40 a39 a38 a37 a36 pr (some c) none =
      .ok (⟨0, 0⟩, ⟨0, 0⟩, a39, ⟨0, 0⟩, clampCa37 allowNeg a37, ⟨0, 0⟩, ⟨0, 0⟩) ∧
    (calculate_F a40 a39 a38 a37 a36 dt pr (some c) none).map FResult.rf =
      .ok ((a40 - UF.smul c.atm4036.n a36).div a39) := by
  have h1z : prGet (zeroStds pr) "ca3937" ⟨0, 0⟩ = ⟨0, 0⟩ := by rw [prGet_zeroStds, h1]
  have h2z : prGet (zeroStds pr) "k3739" ⟨0, 0⟩ = ⟨0, 0⟩ := by rw [prGet_zeroStds, h2]
  have h3z : prGet (zeroStds pr) "k3839" ⟨0, 0⟩ = ⟨0, 0⟩ := by rw [prGet_zeroStds, h3]
  have h4z : prGet (zeroStds pr) "ca3637" ⟨0, 0⟩ = ⟨0, 0⟩ := by rw [prGet_zeroStds, h4]
  have h5z : prGet (zeroStds pr) "ca3837" ⟨0, 0⟩ = ⟨0, 0⟩ := by rw [prGet_zeroStds, h5]
  have h6z : prGet (zeroStds pr) "cl3638" ⟨0, 0⟩ = ⟨0, 0⟩ := by rw [prGet_zeroStds, h6]
  have h7z : prGet (zeroStds pr) "k4039" ⟨1, 0⟩ = ⟨0, 0⟩ := by rw [prGet_zeroStds, h7]
  refine ⟨ic_zero_ratios a40 a39 a38 a37 a36 pr c allowNeg hm hneg h1 h2 h3 h4 h5, ?_⟩
  simp [calculate_F, Bind.bind, Except.bind, Pure.pure, Except.pure, Except.map,
    core_zero_ratios a40 a39 a38 a37 a36 dt pr c allowNeg hm hneg h1 h2 h3 h4 h5 h6 h7 h39,
    core_zero_ratios a40 a39 a38 a37 a36 dt (zeroStds pr) c allowNeg hm hneg
      h1z h2z h3z h4z h5z h6z h7z h39]

/-- C1 witness: the amended theorem applied at a concrete zero-ratio
input. -/
theorem C1_zero_ratio_pipeline_witness :
    interference_corrections ⟨3, 0⟩ ⟨2, 0⟩ ⟨1, 0⟩ ⟨1, 0⟩ ⟨1, 0⟩ zeroRatioPR
      (some testConstants) none =
      .ok (⟨0, 0⟩, ⟨0, 0⟩, ⟨2, 0⟩, ⟨0, 0⟩, clampCa37 true ⟨1, 0⟩, ⟨0, 0⟩, ⟨0, 0⟩) ∧
    (calculate_F ⟨3, 0⟩ ⟨2, 0⟩ ⟨1, 0⟩ ⟨1, 0⟩ ⟨1, 0⟩ 1 zeroRatioPR
        (some testConstants) none).map FResult.rf =
      .ok (((⟨3, 0⟩ : UF) - UF.smul testConstants.atm4036.n ⟨1, 0⟩).div ⟨2, 0⟩) :=
  C1_zero_ratio_pipeline ⟨3, 0⟩ ⟨2, 0⟩ ⟨1, 0⟩ ⟨1, 0⟩ ⟨1, 0⟩ 1 zeroRatioPR testConstants true
    rfl rfl rfl rfl rfl rfl rfl rfl rfl (by norm_num)

/-! ### C3 -/

/-- C3: whenever the interference corrections succeed with a corrected
39Ar(K) of zero nominal value, `calculate_F` returns the F-ratio
`ufloat(1.0, 0)` and raises no exception, for any signals, decay
time, production ratios, constants and fixed-ratio override. -/
theorem C3_zero_k39_gives_unit_F (a40 a39 a38 a37 a36 : UF) (dt : ℚ) (pr : PRDict)
    (c : PyConstants) (fx : Option ℚ) (k37 k38 k39 ca36 ca37 ca38 ca39 : UF)
    (hic : interference_corrections a40 a39 a38 a37 a36 pr (some c) fx =
      .ok (k37, k38, k39, ca36, ca37, ca38, ca39))
    (hk : k39.n = 0) :
    (calculate_F a40 a39 a38 a37 a36 dt pr (some c) fx).map FResult.rf = .ok ⟨1, 0⟩ := by
  obtain ⟨t', hic'⟩ := ic_ok_zeroStds a40 a39 a38 a37 a36 pr c fx _ hic
  obtain ⟨k37', k38', k39', ca36', ca37', ca38', ca39'⟩ := t'
  have h1 := core_unfold a40 a39 a38 a37 a36 dt pr c fx _ _ _ _ _ _ _ hic
  have h2 := core_unfold a40 a39 a38 a37 a36 dt (zeroStds pr) c fx _ _ _ _ _ _ _ hic'
  simp [calculate_F, Bind.bind, Except.bind, Pure.pure, Except.pure, Except.map, h1, h2, hk]

/-- C3 witness: `calculate_F` on a zero 39Ar signal with zero ratios
returns the unit F-ratio. -/
theorem C3_zero_k39_gives_unit_F_witness :
    (calculate_F ⟨2, 0⟩ ⟨0, 0⟩ ⟨1, 0⟩ ⟨1, 0⟩ ⟨1, 0⟩ 1 zeroRatioPR
      (some testConstants) none).map FResult.rf = .ok ⟨1, 0⟩ :=
  C3_zero_k39_gives_unit_F ⟨2, 0⟩ ⟨0, 0⟩ ⟨1, 0⟩ ⟨1, 0⟩ ⟨1, 0⟩ 1 zeroRatioPR testConstants
    none ⟨0, 0⟩ ⟨0, 0⟩ ⟨0, 0⟩ ⟨0, 0⟩ ⟨1, 0⟩ ⟨0, 0⟩ ⟨0, 0⟩
    (by
      have h := ic_zero_ratios ⟨2, 0⟩ ⟨0, 0⟩ ⟨1, 0⟩ ⟨1, 0⟩ ⟨1, 0⟩ zeroRatioPR testConstants
        true rfl rfl rfl rfl rfl rfl rfl
      simpa [clampCa37] using h)
    rfl

/-! ### C4 -/

/-- C4: in iterative mode (k3739_mode `normal`, no fixed override) the
interference correction is exactly five applications, starting from
`37Ar(K) = ufloat(0, 1e-20)` (variance `10 ^ (-40)`), of the map that
computes, in order, `ca37 = a37 - k37`, `ca39 = ca3937 * ca37`,
`k39 = a39 - ca39`, `k37 = k3739 * k39`; the count 5 is baked into
the loop and no argument of the function can change it. -/
theorem C4_five_fixed_point_iterations (a40 a39 a38 a37 a36 : UF) (pr : PRDict)
    (c : PyConstants) (allowNeg : Bool)
    (hm : c.k3739_mode = .ok "normal")
    (hneg : c.allow_negative_ca_correction = .ok allowNeg) :
    interference_corrections a40 a39 a38 a37 a36 pr (some c) none =
      .ok (let t := (fun s : UF × UF × UF × UF =>
            (a37 - s.2.2.2,
             prGet pr "ca3937" ⟨0, 0⟩ * (a37 - s.2.2.2),
             a39 - prGet pr "ca3937" ⟨0, 0⟩ * (a37 - s.2.2.2),
             prGet pr "k3739" ⟨0, 0⟩ *
               (a39 - prGet pr "ca3937" ⟨0, 0⟩ * (a37 - s.2.2.2))))^[5]
            (⟨0, 0⟩, ⟨0, 0⟩, ⟨0, 0⟩, ⟨0, 1 / 10 ^ 40⟩)
          (t.2.2.2, prGet pr "k3839" ⟨0, 0⟩ * t.2.2.1, t.2.2.1,
           prGet pr "ca3637" ⟨0, 0⟩ * clampCa37 allowNeg t.1, clampCa37 allowNeg t.1,
           prGet pr "ca3837" ⟨0, 0⟩ * clampCa37 allowNeg t.1, t.2.1)) := by
  have hstep : (fun s : UF × UF × UF × UF =>
      (a37 - s.2.2.2,
       prGet pr "ca3937" ⟨0, 0⟩ * (a37 - s.2.2.2),
       a39 - prGet pr "ca3937" ⟨0, 0⟩ * (a37 - s.2.2.2),
       prGet pr "k3739" ⟨0, 0⟩ *
         (a39 - prGet pr "ca3937" ⟨0, 0⟩ * (a37 - s.2.2.2)))) = caKStep pr a37 a39 := by
    funext s
    simp [caKStep]
  rw [hstep]
  simp [interference_corrections, hm, hneg, Bind.bind, Except.bind, Pure.pure, Except.pure,
    truthyF, pyLower_normal]

/-- C4 witness: the iteration-structure theorem applied at a concrete
input. -/
theorem C4_five_fixed_point_iterations_witness :
    interference_corrections ⟨2, 0⟩ ⟨1, 0⟩ ⟨1, 0⟩ ⟨1, 0⟩ ⟨1, 0⟩ zeroRatioPR
      (some testConstants) none =
      .ok (let t := (fun s : UF × UF × UF × UF =>
            ((⟨1, 0⟩ : UF) - s.2.2.2,
             prGet zeroRatioPR "ca3937" ⟨0, 0⟩ * ((⟨1, 0⟩ : UF) - s.2.2.2),
             (⟨1, 0⟩ : UF) - prGet zeroRatioPR "ca3937" ⟨0, 0⟩ * ((⟨1, 0⟩ : UF) - s.2.2.2),
             prGet zeroRatioPR "k3739" ⟨0, 0⟩ *
               ((⟨1, 0⟩ : UF) -
                 prGet zeroRatioPR "ca3937" ⟨0, 0⟩ * ((⟨1, 0⟩ : UF) - s.2.2.2))))^[5]
            (⟨0, 0⟩, ⟨0, 0⟩, ⟨0, 0⟩, ⟨0, 1 / 10 ^ 40⟩)
          (t.2.2.2, prGet zeroRatioPR "k3839" ⟨0, 0⟩ * t.2.2.1, t.2.2.1,
           prGet zeroRatioPR "ca3637" ⟨0, 0⟩ * clampCa37 true t.1, clampCa37 true t.1,
           prGet zeroRatioPR "ca3837" ⟨0, 0⟩ * clampCa37 true t.1, t.2.1)) :=
  C4_five_fixed_point_iterations ⟨2, 0⟩ ⟨1, 0⟩ ⟨1, 0⟩ ⟨1, 0⟩ ⟨1, 0⟩ zeroRatioPR
    testConstants true rfl rfl

/-! ### C8 -/

/-- C8 counterexample: at decay constant 0 with a nonempty segment
list, `calculate_decay_factor` raises `ZeroDivisionError` while
computing the denominator sum, before the guarded final division, so
it does not return the claimed quotient-or-1.0 value. -/
theorem C8_counterexample :
    calculate_decay_factor 0 [(1, 1, 0)] = .error .zeroDivisionError ∧
    (Except.error PyErr.zeroDivisionError : Except PyErr ℝ) ≠ .ok 1 := by
  constructor
  · unfold calculate_decay_factor
    rw [if_pos (by simp)]
  · intro h
    cases h

/-- C8 (amended): for every nonzero decay constant,
`calculate_decay_factor` returns the quotient of the power-weighted
duration sum by the decay-weighted denominator sum, with the
fallback 1.0 when the denominator sum is zero; at decay constant 0
with a nonempty segment list it instead raises `ZeroDivisionError`
while computing the denominator sum; and for a single segment
`(1, T, 0)` with nonzero decay constant and duration it reduces to
`T / ((1 - exp(-dc T)) / dc)`. -/
theorem C8_decay_factor_formula :
    (∀ (dc : ℝ) (segments : List (ℝ × ℝ × ℝ)), dc ≠ 0 →
      calculate_decay_factor dc segments =
      if (segments.map
          (fun p => p.1 * ((1 - Real.exp (-dc * p.2.1)) / (dc * Real.exp (dc * p.2.2))))).sum = 0
      then .ok 1
      else .ok ((segments.map (fun p => p.1 * p.2.1)).sum /
        (segments.map
          (fun p => p.1 * ((1 - Real.exp (-dc * p.2.1)) / (dc * Real.exp (dc * p.2.2))))).sum)) ∧
    (∀ segments : List (ℝ × ℝ × ℝ), segments ≠ [] →
      calculate_decay_factor 0 segments = .error .zeroDivisionError) ∧
    (∀ dc T : ℝ, dc ≠ 0 → T ≠ 0 →
      calculate_decay_factor dc [(1, T, 0)] = .ok (T / ((1 - Real.exp (-dc * T)) / dc))) := by
  refine ⟨?_, ?_, ?_⟩
  · intro dc segments hdc
    unfold calculate_decay_factor
    rw [if_neg (by simp [hdc])]
  · intro segments hne
    unfold calculate_decay_factor
    rw [if_pos ⟨rfl, hne⟩]
  · intro dc T hdc hT
    have hexp : Real.exp (-dc * T) ≠ 1 := by
      rw [Ne, Real.exp_eq_one_iff]
      intro h
      rcases mul_eq_zero.mp h with h1 | h2
      · exact hdc (neg_eq_zero.mp h1)
      · exact hT h2
    have hb : (1 - Real.exp (-dc * T)) / dc ≠ 0 := by
      apply div_ne_zero _ hdc
      intro h0
      exact hexp (by linarith [sub_eq_zero.mp h0])
    unfold calculate_decay_factor
    rw [if_neg (by simp [hdc])]
    simp only [List.map_cons, List.map_nil, List.sum_cons, List.sum_nil, mul_zero,
      Real.exp_zero, mul_one, one_mul, add_zero]
    rw [if_neg hb]

/-- C8 witness: the single-segment reduction at `dc = 1`, `T = 1`. -/
theorem C8_decay_factor_formula_witness :
    calculate_decay_factor 1 [(1, 1, 0)] = .ok (1 / ((1 - Real.exp (-1 * 1)) / 1)) :=
  C8_decay_factor_formula.2.2 1 1 one_ne_zero one_ne_zero

/-! ### C2 -/

/-- A constants object with `age_scalar = 2` and a unit decay constant,
for exercising the age-unit scalar. -/
def testConstants2 : PyConstants :=
  { testConstants with age_scalar := .ok 2, lambda_k := .ok ⟨1, 0⟩ }

theorem flux_age_roundtrip_scaled (f age : UFR) (c : PyConstants) (lk : UF) (s : ℚ)
    (hlk : c.lambda_k = .ok lk) (hs : c.age_scalar = .ok s)
    (hf : 0 < f.n) (hl : 0 < (lk.n : ℝ)) (hsne : (s : ℝ) ≠ 0) :
    ∃ j r, calculate_flux f age (some c) = .ok j ∧
      age_equation (.uf j) (.uf f) false (some c) = .ok r ∧
      r.n = age.n / (s : ℝ) := by
  have hfne : f.n ≠ 0 := ne_of_gt hf
  have hlkne : (lk.n : ℝ) ≠ 0 := ne_of_gt hl
  set E : ℝ := Real.exp ((lk.n : ℝ) * age.n) with hE
  set j : UFR := UFR.div (UFR.sub (UFR.exp (UFR.smul (lk.n : ℝ) age)) ⟨1, 0⟩) f with hj
  have hjn : j.n = (E - 1) / f.n := by
    simp [hj, UFR.div, UFR.sub, UFR.exp, UFR.smul, hE]
  have hargn : 1 + j.n * f.n = E := by
    rw [hjn]
    field_simp
  have hApos : 0 < E := Real.exp_pos _
  set r : UFR := UFR.div (UFR.mul (UFR.inv ⟨(lk.n : ℝ), 0⟩)
    (UFR.log (UFR.add ⟨1, 0⟩ (UFR.mul j f)))) ⟨(s : ℝ), 0⟩ with hr
  refine ⟨j, r, ?_, ?_, ?_⟩
  · simp [calculate_flux, hlk, Bind.bind, Except.bind, Pure.pure, Except.pure, hfne, hj]
  · simp only [age_equation, coerceJF, hlk, hs, Bind.bind, Except.bind, Pure.pure,
      Except.pure, Option.getD_some, Bool.false_eq_true, if_false]
    rw [if_neg (by simpa using hlkne)]
    rw [if_neg (by simp [UFR.add, UFR.mul, hargn]; positivity)]
    rw [if_neg hsne]
  · rw [hr]
    simp only [UFR.div, UFR.mul, UFR.inv, UFR.log, UFR.add]
    rw [show (1 : ℝ) + j.n * f.n = E from hargn, hE, Real.log_exp]
    field_simp

/-- C2 counterexample: with the same constants set passed to both calls
but `age_scalar = 2` (and unit decay constant), composing
`calculate_flux` at `F = ufloat(1, 0)`, `age = ufloat(1, 0)` with
`age_equation` returns an age with nominal value `1/2`, not the
original `1`: `age_equation` divides by the age-unit scalar while
`calculate_flux` does not apply it. -/
theorem C2_counterexample :
    ((calculate_flux ⟨1, 0⟩ ⟨1, 0⟩ (some testConstants2)).bind
      (fun j => age_equation (.uf j) (.uf ⟨1, 0⟩) false (some testConstants2))).map UFR.n =
      .ok (1 / 2) ∧ ((1 : ℝ) / 2) ≠ 1 := by
  obtain ⟨j, r, h1, h2, h3⟩ := flux_age_roundtrip_scaled ⟨1, 0⟩ ⟨1, 0⟩ testConstants2
    ⟨1, 0⟩ 2 rfl rfl (by norm_num) (by norm_num) (by norm_num)
  constructor
  · rw [h1]
    simp only [Except.bind, Except.map, h2, h3]
    norm_num
  · norm_num

/-- C2 (amended): for every positive F and positive age, with the same
constants set passed to both calls, a positive combined decay
constant and an age-unit scalar of 1, `calculate_flux` followed by
`age_equation` reproduces the original age nominal value exactly. -/
theorem C2_roundtrip_unit_scalar (f age : UFR) (c : PyConstants) (lk : UF)
    (hlk : c.lambda_k = .ok lk) (hs : c.age_scalar = .ok 1)
    (hf : 0 < f.n) (hage : 0 < age.n) (hl : 0 < (lk.n : ℝ)) :
    ((calculate_flux f age (some c)).bind
      (fun j => age_equation (.uf j) (.uf f) false (some c))).map UFR.n = .ok age.n := by
  obtain ⟨j, r, h1, h2, h3⟩ := flux_age_roundtrip_scaled f age c lk 1 hlk hs hf hl
    (by norm_num)
  rw [h1]
  simp only [Except.bind, Except.map, h2, h3]
  norm_num

/-- C2 witness: the round trip at `F = ufloat(1, 0)`,
`age = ufloat(1, 0)` with a unit age scalar. -/
theorem C2_roundtrip_unit_scalar_witness :
    ((calculate_flux ⟨1, 0⟩ ⟨1, 0⟩ (some testConstants)).bind
      (fun j => age_equation (.uf j) (.uf ⟨1, 0⟩) false (some testConstants))).map UFR.n =
      .ok (⟨1, 0⟩ : UFR).n :=
  C2_roundtrip_unit_scalar ⟨1, 0⟩ ⟨1, 0⟩ testConstants ⟨5543 / 10 ^ 13, 0⟩ rfl rfl
    (by norm_num) (by norm_num) (by norm_num)

/-! ### C5 -/

/-- C5: the closed-form error path cannot reproduce the automatic
propagation path, because `calculate_error_t` raises `TypeError` on
every input: its body calls the `ArArConstants` instance
(`constants()`), and the class is not callable. -/
theorem C5_calculate_error_t_always_raises (F ssF j ssJ : ℝ) :
    calculate_error_t F ssF j ssJ = .error .typeError := rfl

/-! ### C6 -/

/-- C6: on a two-step series whose full range qualifies as a plateau,
`calculate_plateau_age` with `kind = 'vol_fraction'` raises
`TypeError` instead of returning the 39Ar-weighted arithmetic mean:
`numpy.average` returns a single scalar and the source unpacks it
into two names. -/
theorem C6_vol_fraction_raises :
    calculate_plateau_age [1, 1] [1, 1] [1, 1] "vol_fraction" "fleck 1977" =
      .error .typeError := by
  norm_num [calculate_plateau_age, find_plateaus, rangeQualifies, stepsOverlap, sliceL,
    List.product, List.range_succ, List.filter, List.all, List.foldl]

/-! ### C7 -/

/-- C7 counterexample: a malformed string `J` is non-numeric, yet
`age_equation` raises `ValueError` (from the `ufloat` string parse,
performed before the `try` block) instead of returning the claimed
`(0, 0)` fallback. -/
theorem C7_counterexample :
    age_equation (.pystr none) (.tup 1 0) false (some testConstants) =
      .error .valueError ∧
    (Except.error PyErr.valueError : Except PyErr UFR) ≠ .ok ⟨0, 0⟩ := by
  constructor
  · rfl
  · intro h
    cases h

/-- C7 (amended): for J and F whose input conversion succeeds (numeric
pairs, parseable strings, ufloats, or non-numeric objects other than
malformed strings), and a constants set providing a nonzero
`lambda_k` and a nonzero `age_scalar`, `age_equation` returns
`(0, 0)` whenever the logarithm argument `1 + J*F` is non-positive or
J/F are non-numeric, and otherwise `(1/λk) · ln(1 + J·F) /
age_scalar`; a malformed string raises `ValueError` during parsing
instead. -/
theorem C7_age_equation_fallbacks (j f : PyVal) (c : PyConstants) (lk : UF) (s : ℚ)
    (jc fc : Option UFR)
    (hj : coerceJF j = .ok jc) (hf : coerceJF f = .ok fc)
    (hlk : c.lambda_k = .ok lk) (hs : c.age_scalar = .ok s)
    (hlkne : (lk.n : ℝ) ≠ 0) (hsne : (s : ℝ) ≠ 0) :
    age_equation j f false (some c) =
      match jc, fc with
      | some ju, some fu =>
        if 1 + ju.n * fu.n ≤ 0 then .ok ⟨0, 0⟩
        else .ok (UFR.div (UFR.mul (UFR.inv ⟨(lk.n : ℝ), 0⟩)
            (UFR.log (UFR.add ⟨1, 0⟩ (UFR.mul ju fu)))) ⟨(s : ℝ), 0⟩)
      | _, _ => .ok ⟨0, 0⟩ := by
  simp only [age_equation, hj, hf, hlk, hs, Bind.bind, Except.bind, Pure.pure,
    Except.pure, Option.getD_some, Bool.false_eq_true, if_false]
  rw [if_neg (by simpa using hlkne)]
  cases jc with
  | none => cases fc <;> rfl
  | some ju =>
    cases fc with
    | none => rfl
    | some fu =>
      by_cases harg : 1 + ju.n * fu.n ≤ 0
      · simp [harg, UFR.add, UFR.mul]
      · simp [harg, UFR.add, UFR.mul, hsne]

/-- C7 witness: the fallback theorem applied at numeric pair inputs. -/
theorem C7_age_equation_fallbacks_witness :
    age_equation (.tup 1 0) (.tup 1 0) false (some testConstants) =
      match (some ⟨1, 0 ^ 2⟩ : Option UFR), (some ⟨1, 0 ^ 2⟩ : Option UFR) with
      | some ju, some fu =>
        if 1 + ju.n * fu.n ≤ 0 then .ok ⟨0, 0⟩
        else .ok (UFR.div (UFR.mul (UFR.inv ⟨(((5543 : ℚ) / 10 ^ 13 : ℚ) : ℝ), 0⟩)
            (UFR.log (UFR.add ⟨1, 0⟩ (UFR.mul ju fu)))) ⟨(((1 : ℚ)) : ℝ), 0⟩)
      | _, _ => .ok ⟨0, 0⟩ :=
  C7_age_equation_fallbacks (.tup 1 0) (.tup 1 0) testConstants ⟨5543 / 10 ^ 13, 0⟩ 1
    (some ⟨1, 0 ^ 2⟩) (some ⟨1, 0 ^ 2⟩) rfl rfl rfl rfl (by norm_num) (by norm_num)

/-! ### C9 -/

theorem zeroStdHeap_preserves (refs : HDict) (h0 : Heap) (n : Nat)
    (hge : ∀ p ∈ refs, n ≤ p.2) :
    ∀ i, i < n → (zeroStdHeap h0 refs)[i]? = h0[i]? := by
  induction refs generalizing h0 with
  | nil => intro i hi; rfl
  | cons p tl ih =>
    intro i hi
    have hstep : ∀ i, i < n →
        (h0.set p.2 ⟨(h0.getD p.2 ⟨0, 0⟩).n, 0⟩)[i]? = h0[i]? := by
      intro i' hi'
      apply List.getElem?_set_ne
      have := hge p (by simp)
      omega
    calc (zeroStdHeap (h0.set p.2 ⟨(h0.getD p.2 ⟨0, 0⟩).n, 0⟩) tl)[i]?
        = (h0.set p.2 ⟨(h0.getD p.2 ⟨0, 0⟩).n, 0⟩)[i]? :=
          ih _ (fun q hq => hge q (by simp [hq])) i hi
      _ = h0[i]? := hstep i hi

/-- C9: the heap cells the caller's interference dict references are
untouched by `calculate_F`: the per-call copy allocates fresh cells
and the `std_dev`-zeroing loop writes only to those, so after the
call every cell of the original heap reads exactly as before. -/
theorem C9_caller_interferences_unchanged (heap : Heap) (d : HDict)
    (a40 a39 a38 a37 a36 : UF) (dt : ℚ) (cOpt : Option PyConstants) (fx : Option ℚ)
    (i : Nat) (hi : i < heap.length) :
    ((calculate_F_heap heap d a40 a39 a38 a37 a36 dt cOpt fx).2)[i]? = heap[i]? := by
  unfold calculate_F_heap
  calc (zeroStdHeap (copyInterferences heap d).1 (copyInterferences heap d).2)[i]?
      = ((copyInterferences heap d).1)[i]? := by
        apply zeroStdHeap_preserves _ _ heap.length _ i hi
        intro p hp
        simp only [copyInterferences, List.mem_map] at hp
        obtain ⟨q, hq, rfl⟩ := hp
        omega
    _ = heap[i]? := by
        simp only [copyInterferences]
        rw [List.getElem?_append, if_pos hi]

/-- C9 witness: a one-cell heap holding a shared ratio with a nonzero
standard deviation reads unchanged after `calculate_F`. -/
theorem C9_caller_interferences_unchanged_witness :
    ((calculate_F_heap [⟨1, 4⟩] [("ca3937", 0)] ⟨2, 0⟩ ⟨1, 0⟩ ⟨1, 0⟩ ⟨1, 0⟩ ⟨1, 0⟩ 1
        (some testConstants) none).2)[0]? = [(⟨1, 4⟩ : UF)][0]? :=
  C9_caller_interferences_unchanged [⟨1, 4⟩] [("ca3937", 0)] ⟨2, 0⟩ ⟨1, 0⟩ ⟨1, 0⟩ ⟨1, 0⟩
    ⟨1, 0⟩ 1 (some testConstants) none 0 (by decide)

/-! ### C10 -/

/-- C10 counterexample: one invocation with `arar_constants = None`
that does not raise `AttributeError`: `age_equation` given a
malformed string raises `ValueError` while converting its inputs,
before the constants object is consulted. -/
theorem C10_counterexample :
    age_equation (.pystr none) (.tup 1 0) false none = .error .valueError ∧
    (Except.error PyErr.valueError : Except PyErr UFR) ≠
      .error (.attributeError "age_scalar") := by
  constructor
  · rfl
  · intro h
    cases h

/-- C10 (amended): with `arar_constants` omitted, every invocation of
`interference_corrections`, `calculate_F` or `calculate_flux`, and
every invocation of `age_equation` whose input conversion does not
itself raise, fails with `AttributeError` on a missing attribute of
the default-constructed `ArArConstants` (`k3739_mode`, `age_scalar`,
or the `self` dereference inside the broken `lambda_k` property) and
never returns the documented fallback values. -/
theorem C10_default_constants_raise :
    (∀ a40 a39 a38 a37 a36 pr fx,
      interference_corrections a40 a39 a38 a37 a36 pr none fx =
        .error (.attributeError "k3739_mode")) ∧
    (∀ a40 a39 a38 a37 a36 dt pr fx,
      calculate_F a40 a39 a38 a37 a36 dt pr none fx =
        .error (.attributeError "k3739_mode")) ∧
    (∀ f age, calculate_flux f age none = .error (.attributeError "self")) ∧
    (∀ j f incl jc fc, coerceJF j = .ok jc → coerceJF f = .ok fc →
      age_equation j f incl none = .error (.attributeError "age_scalar")) := by
  refine ⟨fun _ _ _ _ _ _ _ => rfl, fun _ _ _ _ _ _ _ _ => rfl, fun _ _ => rfl,
    fun j f incl jc fc hj hf => ?_⟩
  simp [age_equation, hj, hf, defaultArArConstants, Option.getD, Bind.bind, Except.bind]

/-- C10 witness: the amended theorem applied at concrete inputs. -/
theorem C10_default_constants_raise_witness :
    interference_corrections ⟨1, 0⟩ ⟨1, 0⟩ ⟨1, 0⟩ ⟨1, 0⟩ ⟨1, 0⟩ [] none none =
      .error (.attributeError "k3739_mode") ∧
    calculate_F ⟨1, 0⟩ ⟨1, 0⟩ ⟨1, 0⟩ ⟨1, 0⟩ ⟨1, 0⟩ 1 [] none none =
      .error (.attributeError "k3739_mode") ∧
    calculate_flux ⟨1, 0⟩ ⟨2, 0⟩ none = .error (.attributeError "self") ∧
    age_equation (.tup 1 0) (.tup 2 0) false none =
      .error (.attributeError "age_scalar") :=
  ⟨C10_default_constants_raise.1 _ _ _ _ _ [] none,
   C10_default_constants_raise.2.1 _ _ _ _ _ 1 [] none,
   C10_default_constants_raise.2.2.1 ⟨1, 0⟩ ⟨2, 0⟩,
   C10_default_constants_raise.2.2.2 (.tup 1 0) (.tup 2 0) false
     (some ⟨1, 0 ^ 2⟩) (some ⟨2, 0 ^ 2⟩) rfl rfl⟩

end Ararpy
